import Mathlib

/-
  Shallow embedding of the Miner Control Coordinator implemented in
  src/src/gui/gui.go (package gui of BLOC-GUI-Miner).

  External collaborators (the miner backend, the pool-stats HTTP API, the
  Electron transport, the filesystem, the OS user database and the clock)
  are represented by oracle records whose fields hold the outcome each
  external call would return; the embedded functions mirror the Go control
  flow over those outcomes.

  Modelling conventions:
  * Go float64 hashrates are modelled as Rat: gui.go only compares them
    with 0 and copies them, so the rationals embed every relevant float.
  * time.Time values are modelled as Nat second timestamps; the check
    time.Since(lastGraphUpdate).Minutes() >= 1 becomes
    60 <= now - last with truncated Nat subtraction (both are false when
    the elapsed duration is negative, and a minute is 60 seconds).
  * logrus.Fatalf and log.Fatalf terminate the process; this is the
    `terminated` outcome.  A method call through a nil Go interface
    panics; this is the `panicked` outcome.
  * json.Marshal of plain in-memory structs (processing config, frontend
    config, stats) is assumed to succeed, as it does in Go for these
    types; the error branches it would take are therefore not reachable
    in the model.
-/

/-- miner.Config as used by gui.go: backend kind, executable path and the
hardware profile copied from the GUI configuration. -/
structure MinerConfig where
  type : String
  path : String
  hardwareType : Int
deriving DecidableEq

/-- The GUI configuration (struct Config), restricted to the fields gui.go
reads or writes: API endpoint, coin selection, xmrig algorithm fields,
hardware profile (1 = CPU, 2 = GPU), session identifier `mid`, account
address, pool identifier and the derived miner backend configuration. -/
structure Config where
  apiEndpoint : String
  coinType : String
  coinAlgo : String
  xmrigAlgo : String
  xmrigVariant : String
  hardwareType : Int
  mid : String
  address : String
  poolID : String
  miner : MinerConfig
deriving DecidableEq

/-- frontendConfig: the payload decoded from save-configuration /
get-pools-list commands and serialized back for get-config-file.  Field
set inferred from its uses in gui.go (Address, Pool, CoinType, CoinAlgo,
XmrigAlgo, XmrigVariant, HardwareType, Threads, MaxCPU). -/
structure FrontendConfig where
  address : String
  pool : String
  coinType : String
  coinAlgo : String
  xmrigAlgo : String
  xmrigVariant : String
  hardwareType : Int
  threads : Int
  maxCPU : Int
deriving DecidableEq

/-- Mining ports of a pool descriptor: per-hardware-profile endpoints
(poolInfo.MiningPorts.Cpu / .Gpu). -/
structure MiningPorts where
  cpu : String
  gpu : String
deriving DecidableEq

/-- Pool descriptor as read by configureMiner: the per-profile mining
ports and the generic fallback endpoint poolInfo.Config. -/
structure PoolData where
  miningPorts : MiningPorts
  config : String
deriving DecidableEq

/-- An outbound UI event: the command name given to sendElectronCommand /
bootstrap.SendMessage together with the message data. -/
structure Event where
  name : String
  data : String
deriving DecidableEq

/-- Builds the fatal_error event sendElectronCommand emits with an
ElectronMessage whose Data field is `msg`. -/
def fatalEv (msg : String) : Event :=
  { name := "fatal_error", data := msg }

/-- The mutable coordinator state owned by the GUI struct: the (always
non-nil after New) configuration, whether a miner backend instance
exists (gui.miner != nil), the last observed hashrate and the working
directory. -/
structure GuiState where
  config : Config
  minerPresent : Bool
  lastHashrate : Rat
  workingDir : String
deriving DecidableEq

/-- Result of stopMiner: the returned error, the UI events emitted and
whether the backend stop() operation was invoked. -/
structure StopOutcome where
  err : Option String
  events : List Event
  backendStopCalled : Bool
deriving DecidableEq

/-- Result of startMiner: a nil-interface panic (gui.miner is nil and
gui.miner.Start() is called without a guard), a fatal termination after
emitting events, or success. -/
inductive StartOutcome where
  | nilPanic
  | fatal (events : List Event)
  | ok
deriving DecidableEq

/-- What a dispatch of handleElectronCommands comes to: a returned
(result, error) pair, process termination via a Fatalf call, or a
runtime panic. -/
inductive Reply where
  | value (res : Option String) (err : Option String)
  | terminated
  | panicked
deriving DecidableEq

/-- Outcome of one handleElectronCommands dispatch: the updated shared
state, the UI events emitted along the way and the reply. -/
structure DispatchOutcome where
  state : GuiState
  events : List Event
  reply : Reply
deriving DecidableEq

/-- The arguments gui.miner.WriteConfig is called with. -/
structure WriteConfigArgs where
  poolAddress : String
  address : String
  coinAlgo : String
  xmrigAlgo : String
  xmrigVariant : String
  threads : Int
  maxUsage : Int
deriving DecidableEq

/-- Outcome of configureMiner: updated state, emitted events, whether a
Fatalf terminated the process, and the WriteConfig call if one was made. -/
structure ConfigureOutcome where
  state : GuiState
  events : List Event
  terminated : Bool
  writeConfigCall : Option WriteConfigArgs
deriving DecidableEq

/-- Oracles for the external calls a dispatch may perform.  Error-typed
fields hold `some e` / `.error e` when the external call would fail with
error text `e`. -/
structure Env where
  currentUserRes : Option (String × String)
  minerTypeDetRes : Except String (String × String)
  payloadDecodeRes : Except String FrontendConfig
  poolListRes : Except String (List String)
  templateOk : Bool
  coinsContentRes : Except String String
  processingCfgJson : String
  createMinerErr : Option String
  getPoolRes : Except String PoolData
  writeConfigErr : Option String
  saveConfigErr : Option String
  startErr : Option String
  stopErr : Option String
  minerName : String

/-- fmt.Errorf of the final return of handleElectronCommands. -/
def unknownCommandErr (name : String) : String :=
  "\x27" ++ name ++ "\x27 is an unknown command"

/-- Message of the fatal_error event emitted by stopMiner on a stop error. -/
def msgStopMiner (e : String) : String :=
  "Unable to stop miner..Please close the GUI miner and open it again.<br/>The error was \x27" ++ e ++ "\x27"

/-- Message of the fatal_error event emitted by the stop-miner dispatch
branch when stopMiner returned an error. -/
def msgStopDispatch (e : String) : String :=
  "Unable to stop miner backend.Please close the miner and open it again.<br/>The error was \x27" ++ e ++ "\x27"

/-- Message of the fatal_error event emitted by startMiner on a start error. -/
def msgStart (name e : String) : String :=
  "Unable to start \x27" ++ name ++ "\x27 miner, please check that you can run the miner from your installation directory.<br/>The error was \x27" ++ e ++ "\x27"

/-- Message for a get-pools-list payload decode failure. -/
def msgPoolsDecode (e : String) : String :=
  "Unable to fetch pool list from API.Internal error.<br/>The error was \x27" ++ e ++ "\x27"

/-- Message for a get-pools-list remote fetch failure. -/
def msgPoolsFetch (e : String) : String :=
  "Unable to fetch pool list from API.Please check that you are connected to the internet and try again.<br/>The error was \x27" ++ e ++ "\x27"

/-- Message for get-processing-config with no miner instance. -/
def msgProcessingNoMiner : String :=
  "Unable to fetch miner config.Please check that your miner is working and running."

/-- Message for a configureMiner payload decode failure. -/
def msgCfgDecode (e : String) : String :=
  "Unable to configure miner.Please check your configuration is valid.<br/>The error was \x27" ++ e ++ "\x27"

/-- Message for a configureMiner miner-type detection failure. -/
def msgCfgType (e : String) : String :=
  "Unable to configure miner.Could not determine the miner type.<br/>The error was \x27" ++ e ++ "\x27"

/-- Message for a configureMiner CreateMiner failure. -/
def msgCfgCreate (e : String) : String :=
  "Unable to configure miner.<br/>The error was \x27" ++ e ++ "\x27"

/-- Message for a configureMiner GetPool or WriteConfig failure (gui.go
uses the same text for both). -/
def msgCfgNet (e : String) : String :=
  "Unable to configure miner.Please check that you are connected to the internet.<br/>The error was \x27" ++ e ++ "\x27"

/-- Message for a configureMiner SaveConfig failure. -/
def msgCfgSave (e : String) : String :=
  "Unable to configure miner.Please check that you can write to the miner\x27s installation path.<br/>The error was \x27" ++ e ++ "\x27"

/-- Endpoint selection of configureMiner (gui.go lines 539-546):
hardware profile 1 selects the CPU port, 2 the GPU port, and anything
else falls back to poolInfo.Config. -/
def selectPoolAddress (hardwareType : Int) (poolInfo : PoolData) : String :=
  if hardwareType = 1 then poolInfo.miningPorts.cpu
  else if hardwareType = 2 then poolInfo.miningPorts.gpu
  else poolInfo.config

/-- The get-pools-list rendering loop: poolsList starts empty, each
rendered pool fragment is appended in order (the i == 3 cut-off branch
in gui.go is commented out and does nothing), and a final "</div>" is
appended after the loop. -/
def renderPoolsList (frags : List String) : String :=
  (frags.foldl (fun acc f => acc ++ f) "") ++ "</div>"

/-- Modelled from the spec: prefix of the JSON serialization of
frontendConfig, up to the hardware-profile field.  The struct's JSON tags
live outside src/; the key names follow the spec payload
(address, pool, coinType, hardwareType, threads, maxCPU). -/
def fcPre (c : FrontendConfig) : String :=
  "\x7b\"address\":\"" ++ c.address ++ "\",\"pool\":\"" ++ c.pool ++
    "\",\"coinType\":\"" ++ c.coinType ++ "\",\"coinAlgo\":\"" ++ c.coinAlgo ++
    "\",\"xmrigAlgo\":\"" ++ c.xmrigAlgo ++ "\",\"xmrigVariant\":\"" ++ c.xmrigVariant ++ "\","

/-- Modelled from the spec: suffix of the JSON serialization of
frontendConfig, after the hardware-profile field. -/
def fcSuf (c : FrontendConfig) : String :=
  ",\"threads\":" ++ toString c.threads ++ ",\"maxCPU\":" ++ toString c.maxCPU ++ "\x7d"

/-- Modelled from the spec: json.Marshal of frontendConfig (the struct
tags live outside src/). -/
def frontendConfigToJson (c : FrontendConfig) : String :=
  fcPre c ++ ("\"hardwareType\":" ++ toString c.hardwareType) ++ fcSuf c

/-- The frontendConfig value built by the get-config-file branch: the
user-editable subset of the configuration; the remaining fields keep
their Go zero values. -/
def frontendOf (c : Config) : FrontendConfig :=
  { address := "", pool := "", coinType := c.coinType, coinAlgo := c.coinAlgo,
    xmrigAlgo := c.xmrigAlgo, xmrigVariant := c.xmrigVariant,
    hardwareType := c.hardwareType, threads := 0, maxCPU := 0 }

/-- stopMiner (gui.go lines 603-619): nil guard returning success, else
invoke backend stop; on error emit one fatal_error event, log and return
the error (no termination). -/
def stopMiner (minerPresent : Bool) (stopErr : Option String) : StopOutcome :=
  if minerPresent then
    match stopErr with
    | some e => { err := some e, events := [fatalEv (msgStopMiner e)], backendStopCalled := true }
    | none => { err := none, events := [], backendStopCalled := true }
  else
    { err := none, events := [], backendStopCalled := false }

/-- startMiner (gui.go lines 587-600): gui.miner.Start() is called with
no nil guard, so a missing backend instance is a nil-interface panic; a
start error emits a fatal_error event and terminates via Fatalf. -/
def startMiner (minerPresent : Bool) (startErr : Option String) (minerName : String) : StartOutcome :=
  if minerPresent then
    match startErr with
    | some e => .fatal [fatalEv (msgStart minerName e)]
    | none => .ok
  else
    .nilPanic

/-- configureMiner (gui.go lines 455-584): decode the payload, copy its
fields into the configuration, detect the miner type, rebuild the miner
backend configuration (hardware profile copied from the session),
instantiate the backend, fetch the pool descriptor, select the endpoint
by hardware profile, write the backend config and persist.  Every failure
emits a fatal_error event and terminates the process. -/
def configureMiner (env : Env) (st : GuiState) : ConfigureOutcome :=
  match env.payloadDecodeRes with
  | .error e => { state := st, events := [fatalEv (msgCfgDecode e)], terminated := true, writeConfigCall := none }
  | .ok nc =>
    let cfg := { st.config with
      address := nc.address, poolID := nc.pool, coinType := nc.coinType,
      coinAlgo := nc.coinAlgo, xmrigAlgo := nc.xmrigAlgo,
      xmrigVariant := nc.xmrigVariant, hardwareType := nc.hardwareType }
    let st1 := { st with config := cfg }
    match env.minerTypeDetRes with
    | .error e => { state := st1, events := [fatalEv (msgCfgType e)], terminated := true, writeConfigCall := none }
    | .ok (minerType, minerPath) =>
      let cfg2 := { cfg with miner := { type := minerType, path := minerPath, hardwareType := cfg.hardwareType } }
      let st2 := { st1 with config := cfg2 }
      match env.createMinerErr with
      | some e => { state := st2, events := [fatalEv (msgCfgCreate e)], terminated := true, writeConfigCall := none }
      | none =>
        let st3 := { st2 with minerPresent := true }
        match env.getPoolRes with
        | .error e => { state := st3, events := [fatalEv (msgCfgNet e)], terminated := true, writeConfigCall := none }
        | .ok poolInfo =>
          let args : WriteConfigArgs :=
            { poolAddress := selectPoolAddress cfg2.hardwareType poolInfo,
              address := cfg2.address, coinAlgo := cfg2.coinAlgo,
              xmrigAlgo := cfg2.xmrigAlgo, xmrigVariant := cfg2.xmrigVariant,
              threads := nc.threads, maxUsage := nc.maxCPU }
          match env.writeConfigErr with
          | some e => { state := st3, events := [fatalEv (msgCfgNet e)], terminated := true, writeConfigCall := some args }
          | none =>
            match env.saveConfigErr with
            | some e => { state := st3, events := [fatalEv (msgCfgSave e)], terminated := true, writeConfigCall := some args }
            | none => { state := st3, events := [], terminated := false, writeConfigCall := some args }

/-- handleElectronCommands (gui.go lines 247-452): the switch over the
inbound command name.  Note the Go switch has no explicit return in the
start-miner and stop-miner success paths, so those fall through to the
final `unknown command` return. -/
def dispatch (env : Env) (st : GuiState) (name : String) : DispatchOutcome :=
  if name = "get-username" then
    let username :=
      match env.currentUserRes with
      | none => ""
      | some (n, u) => if n ≠ "" then n else if u ≠ "" then u else ""
    { state := st, events := [], reply := .value (some username) none }
  else if name = "get-miner-path" then
    { state := st, events := [], reply := .value (some (st.workingDir ++ "/miner")) none }
  else if name = "get-miner-type" then
    match env.minerTypeDetRes with
    | .ok (minerType, _) => { state := st, events := [], reply := .value (some minerType) none }
    | .error _ => { state := st, events := [], reply := .value (some "") none }
  else if name = "get-pools-list" then
    match env.payloadDecodeRes with
    | .error e => { state := st, events := [fatalEv (msgPoolsDecode e)], reply := .terminated }
    | .ok nc =>
      let st1 := { st with config := { st.config with coinType := nc.coinType } }
      match env.poolListRes with
      | .error e => { state := st1, events := [fatalEv (msgPoolsFetch e)], reply := .terminated }
      | .ok frags =>
        if env.templateOk then
          { state := st1, events := [], reply := .value (some (renderPoolsList frags)) none }
        else
          { state := st1, events := [], reply := .terminated }
  else if name = "get-processing-config" then
    if st.minerPresent then
      { state := st, events := [], reply := .value (some env.processingCfgJson) none }
    else
      { state := st, events := [fatalEv msgProcessingNoMiner], reply := .value (some "") none }
  else if name = "get-coins-content" then
    match env.coinsContentRes with
    | .error _ => { state := st, events := [], reply := .value (some "") none }
    | .ok d => { state := st, events := [], reply := .value (some d) none }
  else if name = "save-configuration" then
    let c := configureMiner env st
    if c.terminated then
      { state := c.state, events := c.events, reply := .terminated }
    else
      { state := c.state, events := c.events, reply := .value (some "Ok") none }
  else if name = "get-config-file" then
    { state := st, events := [],
      reply := .value (some (frontendConfigToJson (frontendOf st.config))) none }
  else if name = "start-miner" then
    match startMiner st.minerPresent env.startErr env.minerName with
    | .nilPanic => { state := st, events := [], reply := .panicked }
    | .fatal evs => { state := st, events := evs, reply := .terminated }
    | .ok => { state := st, events := [], reply := .value none (some (unknownCommandErr "start-miner")) }
  else if name = "stop-miner" then
    let so := stopMiner st.minerPresent env.stopErr
    match so.err with
    | some e => { state := st, events := so.events ++ [fatalEv (msgStopDispatch e)], reply := .terminated }
    | none => { state := st, events := so.events, reply := .value none (some (unknownCommandErr "stop-miner")) }
  else
    { state := st, events := [], reply := .value none (some (unknownCommandErr name)) }

/-- The defaulted configuration New synthesizes on a first run (gui.go
lines 85-94): hardware profile 1 (CPU), a freshly generated uuid as
session identifier, and zero values for the remaining fields. -/
def defaultConfig (apiEndpoint coinType coinAlgo xmrigAlgo xmrigVariant freshMid : String) : Config :=
  { apiEndpoint := apiEndpoint, coinType := coinType, coinAlgo := coinAlgo,
    xmrigAlgo := xmrigAlgo, xmrigVariant := xmrigVariant,
    hardwareType := 1, mid := freshMid, address := "", poolID := "",
    miner := { type := "", path := "", hardwareType := 0 } }

/-- Result of New: an error or the constructed coordinator state. -/
inductive NewResult where
  | err (msg : String)
  | ok (st : GuiState)
deriving DecidableEq

/-- New (gui.go lines 49-228, the configuration-relevant part): refuses an
empty API endpoint; with a persisted configuration it copies the hardware
profile into the miner backend configuration and instantiates the
backend; with none it synthesizes the default configuration with a fresh
uuid (`freshMid` stands for uuid.New().String(), `createMinerErr` for the
CreateMiner outcome). -/
def New (apiEndpoint coinType coinAlgo xmrigAlgo xmrigVariant workingDir : String)
    (persisted : Option Config) (freshMid : String) (createMinerErr : Option String) : NewResult :=
  if apiEndpoint = "" then
    .err "The API Endpoint must be specified"
  else
    match persisted with
    | some c =>
      let c2 := { c with miner := { c.miner with hardwareType := c.hardwareType } }
      match createMinerErr with
      | some e => .err ("Unable to use \x27" ++ c2.miner.type ++ "\x27 as miner: " ++ e)
      | none => .ok { config := c2, minerPresent := true, lastHashrate := 0, workingDir := workingDir }
    | none =>
      .ok { config := defaultConfig apiEndpoint coinType coinAlgo xmrigAlgo xmrigVariant freshMid,
            minerPresent := false, lastHashrate := 0, workingDir := workingDir }

/-- One tick of the local mining-stats loop, as seen by
updateMiningStatsLoop: the current time, whether a miner instance exists,
and the GetStats outcome (none = query error, some h = stats whose
hashrate is h). -/
structure TickInput where
  now : Nat
  minerPresent : Bool
  query : Option Rat
deriving DecidableEq

/-- The loop-local state of updateMiningStatsLoop: gui.lastHashrate and
the lastGraphUpdate timestamp. -/
structure LoopState where
  lastHashrate : Rat
  lastGraphUpdate : Nat
deriving DecidableEq

/-- A miner_stats emission: the hashrate, the stamped account address and
the UpdateGraph hint. -/
structure Emission where
  hashrate : Rat
  address : String
  updateGraph : Bool
deriving DecidableEq

/-- Outcome of one loop tick: the new loop state, the miner_stats
emission (none when the tick was skipped) and whether the tick invoked
the out-of-cycle updateNetworkStats call. -/
structure TickOutput where
  state : LoopState
  emission : Option Emission
  networkFetch : Bool
deriving DecidableEq

/-- One iteration of updateMiningStatsLoop (gui.go lines 646-676): skip
when no miner is set up or the stats query fails; otherwise trigger the
out-of-cycle network refresh when the previous hashrate was 0 and the new
one is positive, store the new hashrate, stamp the address, and set the
UpdateGraph hint when at least a minute passed since it was last set. -/
def statsTick (address : String) (st : LoopState) (t : TickInput) : TickOutput :=
  if t.minerPresent then
    match t.query with
    | none => { state := st, emission := none, networkFetch := false }
    | some h =>
      let fetch : Bool := if st.lastHashrate = 0 ∧ 0 < h then true else false
      if 60 ≤ t.now - st.lastGraphUpdate then
        { state := { lastHashrate := h, lastGraphUpdate := t.now },
          emission := some { hashrate := h, address := address, updateGraph := true },
          networkFetch := fetch }
      else
        { state := { lastHashrate := h, lastGraphUpdate := st.lastGraphUpdate },
          emission := some { hashrate := h, address := address, updateGraph := false },
          networkFetch := fetch }
  else
    { state := st, emission := none, networkFetch := false }

/-- Runs the local-stats loop over a list of tick inputs. -/
def runLoop (address : String) (st : LoopState) : List TickInput → List TickOutput
  | [] => []
  | t :: ts =>
    let o := statsTick address st t
    o :: runLoop address o.state ts

/-- The loop state after processing a list of ticks. -/
def stateAfter (address : String) (st : LoopState) (ts : List TickInput) : LoopState :=
  ts.foldl (fun s t => (statsTick address s t).state) st

/-- Whether a tick outcome emitted stats with the UpdateGraph hint set. -/
def emissionFlag (o : TickOutput) : Bool :=
  match o.emission with
  | some e => e.updateGraph
  | none => false

/-- No tick in the list sets the UpdateGraph hint, starting from state `st`. -/
def noHint (address : String) : LoopState → List TickInput → Prop
  | _, [] => True
  | st, t :: ts => emissionFlag (statsTick address st t) = false ∧ noHint address (statsTick address st t).state ts

/-- Follows the spec's words: the returned markup of get-pools-list
contains a (nonempty) positional cut-off marker inserted after the 4th
rendered entry, before the remaining entries and the trailing closing
tag. -/
def specCutoffMarkerAfter4 (frags : List String) (output : String) : Prop :=
  ∃ m, m ≠ "" ∧ output = String.join (frags.take 4) ++ m ++ String.join (frags.drop 4) ++ "</div>"

/-- Number of fatal_error events in a dispatch outcome. -/
def fatalCount (o : DispatchOutcome) : Nat :=
  (o.events.filter (fun ev => ev.name == "fatal_error")).length

/-- A default oracle record: every remote call fails, every backend call
succeeds. -/
def env0 : Env :=
  { currentUserRes := none, minerTypeDetRes := Except.error "no miner found",
    payloadDecodeRes := Except.error "bad payload", poolListRes := Except.error "api down",
    templateOk := true, coinsContentRes := Except.error "no content",
    processingCfgJson := "", createMinerErr := none,
    getPoolRes := Except.error "api down", writeConfigErr := none,
    saveConfigErr := none, startErr := none, stopErr := none, minerName := "xmrig" }

/-- A freshly defaulted coordinator state with no miner instance. -/
def st0 : GuiState :=
  { config := defaultConfig "api" "BLOC" "cn" "xa" "xv" "mid0",
    minerPresent := false, lastHashrate := 0, workingDir := "wd" }

/-- A coordinator state with a miner instance configured. -/
def st1 : GuiState :=
  { st0 with minerPresent := true }

/-- A decoded frontend configuration with hardware profile 1 (the spec's
save-configuration example payload). -/
def fcBLOC : FrontendConfig :=
  { address := "addr1", pool := "pool1", coinType := "BLOC", coinAlgo := "cn",
    xmrigAlgo := "xa", xmrigVariant := "xv", hardwareType := 1, threads := 4, maxCPU := 80 }

/-- A decoded frontend configuration with an out-of-range hardware profile. -/
def fc7 : FrontendConfig :=
  { fcBLOC with hardwareType := 7 }

/-- A pool descriptor with distinct CPU, GPU and fallback endpoints. -/
def pool0 : PoolData :=
  { miningPorts := { cpu := "p1:1111", gpu := "p1:2222" }, config := "p1:3333" }

/-- Oracles for a successful get-pools-list dispatch returning five
rendered fragments. -/
def env3 : Env :=
  { env0 with payloadDecodeRes := Except.ok fcBLOC,
              poolListRes := Except.ok ["A", "B", "C", "D", "E"] }

/-- Oracles for a configureMiner run reaching endpoint selection with an
out-of-range hardware profile. -/
def env4 : Env :=
  { env0 with payloadDecodeRes := Except.ok fc7,
              minerTypeDetRes := Except.ok ("xmrig", "wd/miner/xmrig"),
              getPoolRes := Except.ok pool0 }

/-- Oracles for a stop dispatch whose backend stop() fails with "E". -/
def envStopE : Env :=
  { env0 with stopErr := some "E" }

/-- A three-tick session whose hashrate goes 5, 0, 7. -/
def ticksC5 : List TickInput :=
  [{ now := 0, minerPresent := true, query := some 5 },
   { now := 5, minerPresent := true, query := some 0 },
   { now := 10, minerPresent := true, query := some 7 }]

/-- A two-tick session whose hashrate drops from 5 to 3. -/
def ticksDrop : List TickInput :=
  [{ now := 0, minerPresent := true, query := some 5 },
   { now := 5, minerPresent := true, query := some 3 }]

/-- A two-tick session whose hashrate returns to 0. -/
def ticksZero : List TickInput :=
  [{ now := 0, minerPresent := true, query := some 5 },
   { now := 5, minerPresent := true, query := some 0 }]

/-- A string whose length is 0 is the empty string. -/
theorem string_length_zero {m : String} (h : m.length = 0) : m = "" := by
  obtain ⟨d⟩ := m
  simp [String.length] at h
  simp [h]

/-- When a tick emits stats with the UpdateGraph hint set, at least 60
seconds passed since lastGraphUpdate, and the new lastGraphUpdate is the
tick's timestamp. -/
theorem statsTick_hint_set (addr : String) (st : LoopState) (t : TickInput) (e : Emission)
    (he : (statsTick addr st t).emission = some e) (hf : e.updateGraph = true) :
    st.lastGraphUpdate + 60 ≤ t.now ∧ ((statsTick addr st t).state).lastGraphUpdate = t.now := by
  unfold statsTick at he ⊢
  by_cases hm : t.minerPresent = true
  · cases hq : t.query with
    | none => simp [hm, hq] at he
    | some h =>
      by_cases hc : 60 ≤ t.now - st.lastGraphUpdate
      · simp [hm, hq, hc] at he ⊢
        omega
      · simp [hm, hq, hc] at he
        rw [← he] at hf
        simp at hf
  · simp [hm] at he

/-- A tick that does not set the UpdateGraph hint leaves lastGraphUpdate
unchanged. -/
theorem statsTick_no_hint (addr : String) (st : LoopState) (t : TickInput)
    (h : emissionFlag (statsTick addr st t) = false) :
    ((statsTick addr st t).state).lastGraphUpdate = st.lastGraphUpdate := by
  by_cases hm : t.minerPresent = true
  · cases hq : t.query with
    | none => simp [statsTick, hm, hq]
    | some hr =>
      by_cases hc : 60 ≤ t.now - st.lastGraphUpdate
      · simp [statsTick, emissionFlag, hm, hq, hc] at h
      · simp [statsTick, hm, hq, hc]
  · simp [statsTick, hm]

/-- A stretch of ticks in which the hint is never set leaves
lastGraphUpdate unchanged. -/
theorem noHint_preserve (addr : String) :
    ∀ (ts : List TickInput) (st : LoopState), noHint addr st ts →
      (stateAfter addr st ts).lastGraphUpdate = st.lastGraphUpdate := by
  intro ts
  induction ts with
  | nil => intro st _; rfl
  | cons t ts ih =>
    intro st hnh
    obtain ⟨h1, h2⟩ := hnh
    have hstep := statsTick_no_hint addr st t h1
    calc (stateAfter addr ((statsTick addr st t).state) ts).lastGraphUpdate
        = ((statsTick addr st t).state).lastGraphUpdate := ih _ h2
      _ = st.lastGraphUpdate := hstep

/-- Claim C6: the UpdateGraph hint is set on a local-stats emission only
if at least one minute (60 seconds, one time unit) has elapsed since the
hint was last set: if a tick `a` emits with the hint set, any stretch of
ticks follows in which the hint is never set, and then a tick `b` emits
with the hint set again, then `b` is at least 60 seconds after `a`; in
particular the hint is never set on two consecutive emissions less than
one minute apart. -/
theorem claim_C6_theorem (addr : String) (st : LoopState) (a : TickInput)
    (mid : List TickInput) (b : TickInput) (ea eb : Emission)
    (ha : (statsTick addr st a).emission = some ea) (hfa : ea.updateGraph = true)
    (hmid : noHint addr ((statsTick addr st a).state) mid)
    (hb : (statsTick addr (stateAfter addr ((statsTick addr st a).state) mid) b).emission = some eb)
    (hfb : eb.updateGraph = true) :
    a.now + 60 ≤ b.now := by
  obtain ⟨_, hset⟩ := statsTick_hint_set addr st a ea ha hfa
  have hmidkeep := noHint_preserve addr mid ((statsTick addr st a).state) hmid
  obtain ⟨hge, _⟩ := statsTick_hint_set addr _ b eb hb hfb
  rw [hmidkeep, hset] at hge
  exact hge

/-- Claim C6 witness: a concrete session in which tick at t=60 sets the
hint, a tick at t=70 does not, and a tick at t=120 sets it again. -/
theorem claim_C6_witness :
    (statsTick "a" { lastHashrate := 0, lastGraphUpdate := 0 }
      { now := 60, minerPresent := true, query := some 1 }).emission =
      some { hashrate := 1, address := "a", updateGraph := true } ∧
    noHint "a" ((statsTick "a" { lastHashrate := 0, lastGraphUpdate := 0 }
      { now := 60, minerPresent := true, query := some 1 }).state)
      [{ now := 70, minerPresent := true, query := some 1 }] ∧
    (60 : Nat) + 60 ≤ 120 := by
  refine ⟨by decide, ⟨by decide, trivial⟩, ?_⟩
  exact claim_C6_theorem "a" { lastHashrate := 0, lastGraphUpdate := 0 }
    { now := 60, minerPresent := true, query := some 1 }
    [{ now := 70, minerPresent := true, query := some 1 }]
    { now := 120, minerPresent := true, query := some 1 }
    { hashrate := 1, address := "a", updateGraph := true }
    { hashrate := 1, address := "a", updateGraph := true }
    (by decide) rfl ⟨by decide, trivial⟩ (by decide) rfl

/-- Claim C5 (amended): a local-stats emission triggers the immediate
out-of-cycle network-stats fetch exactly when the stored last-observed
hashrate is zero and the newly reported hashrate is positive; the first
nonzero emission therefore triggers one, but the fetch can recur later in
the same session whenever the hashrate returned to zero in between. -/
theorem claim_C5_theorem (addr : String) (st : LoopState) (t : TickInput) (h : Rat)
    (hm : t.minerPresent = true) (hq : t.query = some h) :
    ((statsTick addr st t).networkFetch = true ↔ (st.lastHashrate = 0 ∧ 0 < h)) := by
  by_cases hc : 60 ≤ t.now - st.lastGraphUpdate
  · by_cases hz : st.lastHashrate = 0 ∧ 0 < h <;> simp [statsTick, hm, hq, hc, hz]
  · by_cases hz : st.lastHashrate = 0 ∧ 0 < h <;> simp [statsTick, hm, hq, hc, hz]

/-- Claim C5 counterexample: in the session whose reported hashrates are
5, 0, 7, both the first and the third emission trigger an immediate
out-of-cycle network-stats fetch, so the first nonzero emission is not
the only one that triggers such a fetch. -/
theorem claim_C5_counterexample :
    ((runLoop "a" { lastHashrate := 0, lastGraphUpdate := 0 } ticksC5).map
      (fun o => o.networkFetch)) = [true, false, true] ∧
    ¬ (((runLoop "a" { lastHashrate := 0, lastGraphUpdate := 0 } ticksC5).map
      (fun o => o.networkFetch)).count true = 1) := by decide

/-- Claim C5 witness: the first tick of a fresh session with hashrate 5
triggers the fetch. -/
theorem claim_C5_witness :
    (statsTick "a" { lastHashrate := 0, lastGraphUpdate := 0 }
      { now := 0, minerPresent := true, query := some 5 }).networkFetch = true ↔
    ((0 : Rat) = 0 ∧ (0 : Rat) < 5) :=
  claim_C5_theorem "a" { lastHashrate := 0, lastGraphUpdate := 0 }
    { now := 0, minerPresent := true, query := some 5 } 5 rfl rfl

/-- Claim C7 (amended): the last-observed hashrate is not monotonic; it
simply tracks the hashrate of the most recent successful stats query (so
it can decrease and return to zero), and the Apply-Configuration
procedure leaves it unchanged (the reconfigure path that reset it is
commented out in gui.go). -/
theorem claim_C7_theorem (addr : String) (st : LoopState) (t : TickInput) (h : Rat)
    (env : Env) (gst : GuiState)
    (hm : t.minerPresent = true) (hq : t.query = some h) :
    ((statsTick addr st t).state).lastHashrate = h ∧
    ((configureMiner env gst).state).lastHashrate = gst.lastHashrate := by
  constructor
  · by_cases hc : 60 ≤ t.now - st.lastGraphUpdate <;> simp [statsTick, hm, hq, hc]
  · cases hpd : env.payloadDecodeRes with
    | error e => simp [configureMiner, hpd]
    | ok nc =>
      cases hmt : env.minerTypeDetRes with
      | error e => simp [configureMiner, hpd, hmt]
      | ok mt =>
        obtain ⟨mty, mpa⟩ := mt
        cases hcm : env.createMinerErr with
        | some e => simp [configureMiner, hpd, hmt, hcm]
        | none =>
          cases hgp : env.getPoolRes with
          | error e => simp [configureMiner, hpd, hmt, hcm, hgp]
          | ok pI =>
            cases hwc : env.writeConfigErr with
            | some e => simp [configureMiner, hpd, hmt, hcm, hgp, hwc]
            | none =>
              cases hsc : env.saveConfigErr with
              | some e => simp [configureMiner, hpd, hmt, hcm, hgp, hwc, hsc]
              | none => simp [configureMiner, hpd, hmt, hcm, hgp, hwc, hsc]

/-- Claim C7 counterexample: over the session with hashrates 5 then 3,
the stored hashrate decreases from 5 to 3 (not monotonic), and over the
session with hashrates 5 then 0 it is reset to zero by the stats loop
itself, with no reconfiguration involved. -/
theorem claim_C7_counterexample :
    ((runLoop "a" { lastHashrate := 0, lastGraphUpdate := 0 } ticksDrop).map
      (fun o => o.state.lastHashrate)) = [5, 3] ∧
    ¬ ((5 : Rat) ≤ 3) ∧
    ((runLoop "a" { lastHashrate := 0, lastGraphUpdate := 0 } ticksZero).map
      (fun o => o.state.lastHashrate)) = [5, 0] := by decide

/-- Claim C7 witness: a successful query with hashrate 5 stores 5, and
configureMiner with the default oracles leaves the stored hashrate of the
default state unchanged. -/
theorem claim_C7_witness :
    ((statsTick "a" { lastHashrate := 0, lastGraphUpdate := 0 }
      { now := 0, minerPresent := true, query := some 5 }).state).lastHashrate = 5 ∧
    ((configureMiner env0 st0).state).lastHashrate = st0.lastHashrate :=
  claim_C7_theorem "a" { lastHashrate := 0, lastGraphUpdate := 0 }
    { now := 0, minerPresent := true, query := some 5 } 5 env0 st0 rfl rfl

/-- Claim C9: the Stop procedure on a coordinator with no backend
instance returns success, emits no UI event and performs no backend
operation, whatever the stop oracle would have answered. -/
theorem claim_C9_theorem (stopErr : Option String) :
    stopMiner false stopErr = { err := none, events := [], backendStopCalled := false } := rfl

/-- Claim C10: dispatching start on a coordinator whose backend reference
is nil reaches gui.miner.Start() with no nil guard and panics, while the
stop dispatch is protected by stopMiner's nil guard and never panics. -/
theorem claim_C10_theorem (env : Env) (st : GuiState) (hm : st.minerPresent = false) :
    (dispatch env st "start-miner").reply = Reply.panicked ∧
    startMiner st.minerPresent env.startErr env.minerName = StartOutcome.nilPanic ∧
    (dispatch env st "stop-miner").reply ≠ Reply.panicked := by
  refine ⟨?_, ?_, ?_⟩
  · simp [dispatch, startMiner, hm]
  · simp [startMiner, hm]
  · simp [dispatch, stopMiner, hm]

/-- Claim C10 witness: the fresh unconfigured state panics on start and
not on stop. -/
theorem claim_C10_witness :
    (dispatch env0 st0 "start-miner").reply = Reply.panicked ∧
    startMiner st0.minerPresent env0.startErr env0.minerName = StartOutcome.nilPanic ∧
    (dispatch env0 st0 "stop-miner").reply ≠ Reply.panicked :=
  claim_C10_theorem env0 st0 rfl

/-- Claim C4: in every Apply-Configuration run that reaches endpoint
selection (payload decoded, miner type detected, backend created, pool
descriptor fetched), the pool endpoint passed to the backend WriteConfig
call is the CPU endpoint for hardware profile 1, the GPU endpoint for
profile 2, and the generic fallback endpoint for every other profile. -/
theorem claim_C4_theorem (env : Env) (st : GuiState) (nc : FrontendConfig)
    (minerType minerPath : String) (p : PoolData)
    (h1 : env.payloadDecodeRes = Except.ok nc)
    (h2 : env.minerTypeDetRes = Except.ok (minerType, minerPath))
    (h3 : env.createMinerErr = none)
    (h4 : env.getPoolRes = Except.ok p) :
    ((configureMiner env st).writeConfigCall.map (fun a => a.poolAddress)) =
      some (selectPoolAddress nc.hardwareType p) ∧
    (nc.hardwareType = 1 → selectPoolAddress nc.hardwareType p = p.miningPorts.cpu) ∧
    (nc.hardwareType = 2 → selectPoolAddress nc.hardwareType p = p.miningPorts.gpu) ∧
    (nc.hardwareType ≠ 1 → nc.hardwareType ≠ 2 → selectPoolAddress nc.hardwareType p = p.config) := by
  refine ⟨?_, ?_, ?_, ?_⟩
  · cases hwc : env.writeConfigErr with
    | some e => simp [configureMiner, h1, h2, h3, h4, hwc]
    | none =>
      cases hsc : env.saveConfigErr with
      | some e => simp [configureMiner, h1, h2, h3, h4, hwc, hsc]
      | none => simp [configureMiner, h1, h2, h3, h4, hwc, hsc]
  · intro hone
    simp [selectPoolAddress, hone]
  · intro htwo
    simp [selectPoolAddress, htwo]
  · intro hone htwo
    simp [selectPoolAddress, hone, htwo]

/-- Claim C4 witness: with hardware profile 7 the WriteConfig call uses
the generic fallback endpoint of the pool descriptor. -/
theorem claim_C4_witness :
    ((configureMiner env4 st0).writeConfigCall.map (fun a => a.poolAddress)) =
      some (selectPoolAddress fc7.hardwareType pool0) ∧
    (fc7.hardwareType = 1 → selectPoolAddress fc7.hardwareType pool0 = pool0.miningPorts.cpu) ∧
    (fc7.hardwareType = 2 → selectPoolAddress fc7.hardwareType pool0 = pool0.miningPorts.gpu) ∧
    (fc7.hardwareType ≠ 1 → fc7.hardwareType ≠ 2 →
      selectPoolAddress fc7.hardwareType pool0 = pool0.config) :=
  claim_C4_theorem env4 st0 fc7 "xmrig" "wd/miner/xmrig" pool0 rfl rfl rfl rfl

/-- Claim C1 (amended): when a stop dispatch hits a backend stop error E,
the Stop procedure itself emits exactly one fatal_error event containing
E and returns E to the dispatcher without terminating; the dispatcher
then emits a second fatal_error event containing E and terminates the
process, so the dispatch emits two fatal_error events in total and its
caller never receives the error. -/
theorem claim_C1_theorem (env : Env) (st : GuiState) (e : String)
    (hm : st.minerPresent = true) (he : env.stopErr = some e) :
    (dispatch env st "stop-miner").events =
      [fatalEv (msgStopMiner e), fatalEv (msgStopDispatch e)] ∧
    (dispatch env st "stop-miner").reply = Reply.terminated ∧
    stopMiner st.minerPresent env.stopErr =
      { err := some e, events := [fatalEv (msgStopMiner e)], backendStopCalled := true } := by
  refine ⟨?_, ?_, ?_⟩ <;> simp [dispatch, stopMiner, fatalEv, hm, he]

/-- Claim C1 counterexample: dispatching stop with a backend stop error
"E" does not emit exactly one fatal_error event while leaving the process
running — it emits two and terminates the process. -/
theorem claim_C1_counterexample :
    ¬ (fatalCount (dispatch envStopE st1 "stop-miner") = 1 ∧
       (dispatch envStopE st1 "stop-miner").reply ≠ Reply.terminated) := by decide

/-- Claim C1 witness: the concrete stop dispatch with error "E". -/
theorem claim_C1_witness :
    (dispatch envStopE st1 "stop-miner").events =
      [fatalEv (msgStopMiner "E"), fatalEv (msgStopDispatch "E")] ∧
    (dispatch envStopE st1 "stop-miner").reply = Reply.terminated ∧
    stopMiner st1.minerPresent envStopE.stopErr =
      { err := some "E", events := [fatalEv (msgStopMiner "E")], backendStopCalled := true } :=
  claim_C1_theorem envStopE st1 "E" rfl rfl

/-- Claim C2: dispatching start-miner on a configured coordinator whose
backend start succeeds returns the `unknown command` error, because the
start-miner (and stop-miner) switch cases fall through to the final
return of handleElectronCommands instead of returning (nil, nil). -/
theorem claim_C2_theorem :
    dispatch env0 st1 "start-miner" =
      { state := st1, events := [],
        reply := Reply.value none (some (unknownCommandErr "start-miner")) } ∧
    unknownCommandErr "start-miner" = "\x27start-miner\x27 is an unknown command" := by decide

/-- Claim C3 (amended): get-pools-list updates the session coin type from
the decoded payload and returns the plain in-order concatenation of the
rendered pool fragments followed by a single closing tag; no positional
cut-off marker is inserted after the 4th entry (that branch is commented
out in gui.go). -/
theorem claim_C3_theorem (env : Env) (st : GuiState) (nc : FrontendConfig)
    (frags : List String)
    (hd : env.payloadDecodeRes = Except.ok nc)
    (hp : env.poolListRes = Except.ok frags)
    (ht : env.templateOk = true) :
    ((dispatch env st "get-pools-list").state).config.coinType = nc.coinType ∧
    (dispatch env st "get-pools-list").reply = Reply.value (some (renderPoolsList frags)) none := by
  refine ⟨?_, ?_⟩ <;> simp [dispatch, hd, hp, ht]

/-- Claim C3 counterexample: with five rendered fragments A..E the
returned markup is the bare concatenation "ABCDE</div>"; no nonempty
cut-off marker sits between the 4th and the 5th entry. -/
theorem claim_C3_counterexample :
    (dispatch env3 st0 "get-pools-list").reply = Reply.value (some "ABCDE</div>") none ∧
    ¬ specCutoffMarkerAfter4 ["A", "B", "C", "D", "E"] "ABCDE</div>" := by
  constructor
  · decide
  · rintro ⟨m, hm, heq⟩
    have h4 : String.join ((["A", "B", "C", "D", "E"]).take 4) = "ABCD" := rfl
    have h5 : String.join ((["A", "B", "C", "D", "E"]).drop 4) = "E" := rfl
    rw [h4, h5] at heq
    have hlen := congrArg String.length heq
    rw [String.length_append, String.length_append, String.length_append] at hlen
    have l1 : ("ABCDE</div>" : String).length = 11 := rfl
    have l2 : ("ABCD" : String).length = 4 := rfl
    have l3 : ("E" : String).length = 1 := rfl
    have l4 : ("</div>" : String).length = 6 := rfl
    rw [l1, l2, l3, l4] at hlen
    have hz : m.length = 0 := by omega
    exact hm (string_length_zero hz)

/-- Claim C3 witness: a concrete get-pools-list dispatch with the five
fragments A..E. -/
theorem claim_C3_witness :
    ((dispatch env3 st0 "get-pools-list").state).config.coinType = fcBLOC.coinType ∧
    (dispatch env3 st0 "get-pools-list").reply =
      Reply.value (some (renderPoolsList ["A", "B", "C", "D", "E"])) none :=
  claim_C3_theorem env3 st0 fcBLOC ["A", "B", "C", "D", "E"] rfl rfl rfl

/-- Claim C8: a coordinator constructed with no persisted configuration
synthesizes a default session whose hardware profile is 1 (CPU) and whose
session identifier is the freshly generated uuid; dispatching
get-config-file on that state returns the serialized frontend
configuration, whose serialization contains the default hardware profile. -/
theorem claim_C8_theorem (api ct ca xa xv wd mid : String) (cme : Option String) (env : Env)
    (hapi : api ≠ "") :
    New api ct ca xa xv wd none mid cme =
      NewResult.ok { config := defaultConfig api ct ca xa xv mid, minerPresent := false,
                     lastHashrate := 0, workingDir := wd } ∧
    (defaultConfig api ct ca xa xv mid).hardwareType = 1 ∧
    (defaultConfig api ct ca xa xv mid).mid = mid ∧
    (dispatch env { config := defaultConfig api ct ca xa xv mid, minerPresent := false,
                    lastHashrate := 0, workingDir := wd } "get-config-file").reply =
      Reply.value (some (frontendConfigToJson
        { address := "", pool := "", coinType := ct, coinAlgo := ca, xmrigAlgo := xa,
          xmrigVariant := xv, hardwareType := 1, threads := 0, maxCPU := 0 })) none ∧
    ∃ p q, frontendConfigToJson
        { address := "", pool := "", coinType := ct, coinAlgo := ca, xmrigAlgo := xa,
          xmrigVariant := xv, hardwareType := 1, threads := 0, maxCPU := 0 } =
      p ++ "\"hardwareType\":1" ++ q := by
  refine ⟨?_, rfl, rfl, ?_, ?_⟩
  · simp [New, hapi]
  · rfl
  · exact ⟨fcPre (FrontendConfig.mk "" "" ct ca xa xv 1 0 0),
      fcSuf (FrontendConfig.mk "" "" ct ca xa xv 1 0 0), rfl⟩

/-- Claim C8 witness: a concrete fresh construction with uuid "mid0". -/
theorem claim_C8_witness :
    New "api" "BLOC" "cn" "xa" "xv" "wd" none "mid0" none =
      NewResult.ok { config := defaultConfig "api" "BLOC" "cn" "xa" "xv" "mid0",
                     minerPresent := false, lastHashrate := 0, workingDir := "wd" } ∧
    (defaultConfig "api" "BLOC" "cn" "xa" "xv" "mid0").hardwareType = 1 ∧
    (defaultConfig "api" "BLOC" "cn" "xa" "xv" "mid0").mid = "mid0" ∧
    (dispatch env0 { config := defaultConfig "api" "BLOC" "cn" "xa" "xv" "mid0",
                     minerPresent := false, lastHashrate := 0, workingDir := "wd" }
      "get-config-file").reply =
      Reply.value (some (frontendConfigToJson
        { address := "", pool := "", coinType := "BLOC", coinAlgo := "cn", xmrigAlgo := "xa",
          xmrigVariant := "xv", hardwareType := 1, threads := 0, maxCPU := 0 })) none ∧
    ∃ p q, frontendConfigToJson
        { address := "", pool := "", coinType := "BLOC", coinAlgo := "cn", xmrigAlgo := "xa",
          xmrigVariant := "xv", hardwareType := 1, threads := 0, maxCPU := 0 } =
      p ++ "\"hardwareType\":1" ++ q :=
  claim_C8_theorem "api" "BLOC" "cn" "xa" "xv" "wd" "mid0" none env0 (by decide)
